import Mathlib

/-!
Verification of `haystack/errors.py`: the Haystack error taxonomy.

The Python module defines a base class `HaystackError(Exception)` and ~14
subclasses. The base constructor builds a telemetry payload, calls
`send_custom_event(event=f"{type(self).__name__} raised", payload=payload)`,
sets `self.message` only when the message argument is truthy, and sets
`self.docs_link = None`. `__getattr__` forwards unknown attribute reads to
`self.__cause__`, and `__str__` renders the message with an optional
documentation hint.

We embed the module shallowly: each Python `__init__` becomes a Lean
function threading the dynamic class name and returning the constructed
record together with the list of telemetry calls made; attribute access and
`__str__` become `Except`-valued functions so that Python exceptions
(`AttributeError`, `TypeError`) are explicit.
-/

/-- The concrete error classes defined in `haystack/errors.py`, used as the
dynamic type of a constructed instance (`type(self)` in Python). -/
inductive Kind
  | HaystackError
  | ModelingError
  | PipelineError
  | PipelineSchemaError
  | PipelineConfigError
  | DocumentStoreError
  | FilterError
  | PineconeDocumentStoreError
  | DuplicateDocumentError
  | NodeError
  | AudioNodeError
  | OpenAIError
  | OpenAIRateLimitError
  | CohereError
  | ImageToTextError
deriving DecidableEq

/-- `type(self).__name__` for each class in the module. -/
def className : Kind → String
  | .HaystackError => "HaystackError"
  | .ModelingError => "ModelingError"
  | .PipelineError => "PipelineError"
  | .PipelineSchemaError => "PipelineSchemaError"
  | .PipelineConfigError => "PipelineConfigError"
  | .DocumentStoreError => "DocumentStoreError"
  | .FilterError => "FilterError"
  | .PineconeDocumentStoreError => "PineconeDocumentStoreError"
  | .DuplicateDocumentError => "DuplicateDocumentError"
  | .NodeError => "NodeError"
  | .AudioNodeError => "AudioNodeError"
  | .OpenAIError => "OpenAIError"
  | .OpenAIRateLimitError => "OpenAIRateLimitError"
  | .CohereError => "CohereError"
  | .ImageToTextError => "ImageToTextError"

/-- Python classes relevant to `isinstance` checks on the taxonomy: the
builtins `Exception` and `ValueError`, plus the classes of the module. -/
inductive PyClass
  | Exc
  | ValueError
  | E (k : Kind)
deriving DecidableEq

/-- Direct base classes, as written in the `class` statements of the module
(and `ValueError(Exception)`, `HaystackError(Exception)` for the roots). -/
def bases : PyClass → List PyClass
  | .Exc => []
  | .ValueError => [.Exc]
  | .E .HaystackError => [.Exc]
  | .E .ModelingError => [.E .HaystackError]
  | .E .PipelineError => [.E .HaystackError]
  | .E .PipelineSchemaError => [.E .PipelineError]
  | .E .PipelineConfigError => [.E .PipelineError]
  | .E .DocumentStoreError => [.E .HaystackError]
  | .E .FilterError => [.E .DocumentStoreError]
  | .E .PineconeDocumentStoreError => [.E .DocumentStoreError]
  | .E .DuplicateDocumentError => [.E .DocumentStoreError, .ValueError]
  | .E .NodeError => [.E .HaystackError]
  | .E .AudioNodeError => [.E .NodeError]
  | .E .OpenAIError => [.E .NodeError]
  | .E .OpenAIRateLimitError => [.E .OpenAIError]
  | .E .CohereError => [.E .NodeError]
  | .E .ImageToTextError => [.E .NodeError]

/-- Fuel-bounded reflexive-transitive closure of `bases`. -/
def subclassFuel : Nat → PyClass → PyClass → Bool
  | 0, _, _ => false
  | n + 1, c, d => c == d || (bases c).any fun b => subclassFuel n b d

/-- `issubclass`, hence `isinstance` for a direct instance: the hierarchy has
depth at most 5, so fuel 8 reaches every ancestor. -/
def isSubclass (c d : PyClass) : Bool := subclassFuel 8 c d

/-- A Python value appearing as an attribute: `None`, a string or an int. -/
inductive PyValue
  | none
  | str (s : String)
  | int (n : Int)
deriving DecidableEq

/-- Python exceptions that attribute access and `__str__` can raise. -/
inductive PyErr
  | attributeError
  | typeError
deriving DecidableEq

/-- The state of a constructed error instance: its dynamic class, its
instance attributes (`message` set only when truthy, `docs_link` always set,
`status_code` set only by the OpenAI/Cohere constructors), and `__cause__`
(None at construction, set by `raise ... from ...`), modelled as a list of
attribute/value pairs of the wrapped lower-level error. -/
structure ErrorRecord where
  cls : Kind
  message : Option String
  docs_link : Option String
  status_code : Option (Option Int)
  cause : Option (List (String × PyValue))
deriving DecidableEq

/-- A telemetry call: `send_custom_event(event=name, payload=payload)`.
The payload is either the empty dict or `{"message": message}`. -/
inductive Payload
  | empty
  | withMessage (m : Option String)
deriving DecidableEq

/-- An emitted telemetry event (name and payload). -/
structure Event where
  name : String
  payload : Payload
deriving DecidableEq

/-- The external telemetry transport: delivering one event may fail. -/
def Tele : Type := Event → Except String Unit

/-- Modelled from the spec: `send_custom_event` lives in
`haystack/telemetry.py`, which is not part of the sources here; per the spec
the telemetry collaborator is fire-and-forget and "failures inside emit never
propagate back into the caller's control flow", so the transport is invoked
and any failure it reports is swallowed. The returned list records that one
telemetry call was made. -/
def send_custom_event (t : Tele) (ev : Event) : Except String (List Event) :=
  let _ := t ev
  Except.ok [ev]

/-- Truthiness of an `Optional[str]`: `None` and `""` are falsy. -/
def strTruthy : Option String → Bool
  | Option.none => false
  | Option.some s => s != ""

/-- Embeds `HaystackError.__init__(message, docs_link, send_message_in_event)`.
The payload is `{"message": message}` when the flag is set, else `{}`;
`send_custom_event` is called once, with no `try`/`except` around it, so a
failure raised by it would propagate (hence the `Except` threading);
`self.message` is set only when `message` is truthy; `self.docs_link` is
assigned `None` (the `docs_link` argument is not used). -/
def haystackErrorInit (t : Tele) (cls : Kind) (message docs_link : Option String)
    (send_message_in_event : Bool) : Except String (ErrorRecord × List Event) :=
  let payload := if send_message_in_event then Payload.withMessage message else Payload.empty
  match send_custom_event t ⟨className cls ++ " raised", payload⟩ with
  | Except.error e => Except.error e
  | Except.ok log =>
      Except.ok
        ({ cls := cls
           message := if strTruthy message then message else Option.none
           docs_link := Option.none
           status_code := Option.none
           cause := Option.none }, log)

/-- Default `docs_link` of `ModelingError.__init__`. -/
def modelingDocsDefault : Option String := Option.some "https://haystack.deepset.ai/"

/-- Default `docs_link` of `PipelineError.__init__`. -/
def pipelineDocsDefault : Option String :=
  Option.some "https://docs.haystack.deepset.ai/docs/pipelines"

/-- Default `docs_link` of `PipelineConfigError.__init__`. -/
def pipelineConfigDocsDefault : Option String :=
  Option.some "https://docs.haystack.deepset.ai/docs/pipelines#yaml-file-definitions"

/-- Embeds `ModelingError.__init__`: `super().__init__(message, docs_link)`
with the inherited default `send_message_in_event=True`. -/
def modelingErrorInit (t : Tele) (cls : Kind) (message docs_link : Option String) :
    Except String (ErrorRecord × List Event) :=
  haystackErrorInit t cls message docs_link true

/-- Embeds `PipelineError.__init__`. -/
def pipelineErrorInit (t : Tele) (cls : Kind) (message docs_link : Option String) :
    Except String (ErrorRecord × List Event) :=
  haystackErrorInit t cls message docs_link true

/-- Embeds `PipelineSchemaError.__init__`: `super().__init__(message)` with
`PipelineError`'s default docs link. -/
def pipelineSchemaErrorInit (t : Tele) (cls : Kind) (message : Option String) :
    Except String (ErrorRecord × List Event) :=
  pipelineErrorInit t cls message pipelineDocsDefault

/-- Embeds `PipelineConfigError.__init__`. -/
def pipelineConfigErrorInit (t : Tele) (cls : Kind) (message docs_link : Option String) :
    Except String (ErrorRecord × List Event) :=
  pipelineErrorInit t cls message docs_link

/-- Embeds `DocumentStoreError.__init__(message, send_message_in_event=False)`:
`docs_link` is not passed, so `HaystackError`'s default `None` applies. -/
def documentStoreErrorInit (t : Tele) (cls : Kind) (message : Option String)
    (send_message_in_event : Bool) : Except String (ErrorRecord × List Event) :=
  haystackErrorInit t cls message Option.none send_message_in_event

/-- Embeds `FilterError.__init__`: `super().__init__(message)` with
`DocumentStoreError`'s default `send_message_in_event=False`. -/
def filterErrorInit (t : Tele) (cls : Kind) (message : Option String) :
    Except String (ErrorRecord × List Event) :=
  documentStoreErrorInit t cls message false

/-- Embeds `PineconeDocumentStoreError.__init__`. -/
def pineconeDocumentStoreErrorInit (t : Tele) (cls : Kind) (message : Option String) :
    Except String (ErrorRecord × List Event) :=
  documentStoreErrorInit t cls message false

/-- Embeds `DuplicateDocumentError.__init__`: by the MRO, `super().__init__`
is `DocumentStoreError.__init__` with its default flag. -/
def duplicateDocumentErrorInit (t : Tele) (cls : Kind) (message : Option String) :
    Except String (ErrorRecord × List Event) :=
  documentStoreErrorInit t cls message false

/-- Embeds `NodeError.__init__(message, send_message_in_event=True)`. -/
def nodeErrorInit (t : Tele) (cls : Kind) (message : Option String)
    (send_message_in_event : Bool) : Except String (ErrorRecord × List Event) :=
  haystackErrorInit t cls message Option.none send_message_in_event

/-- Embeds `AudioNodeError.__init__`. -/
def audioNodeErrorInit (t : Tele) (cls : Kind) (message : Option String) :
    Except String (ErrorRecord × List Event) :=
  nodeErrorInit t cls message true

/-- Embeds `OpenAIError.__init__(message, status_code, send_message_in_event=False)`:
after the `super()` chain it sets `self.status_code = status_code`. -/
def openAIErrorInit (t : Tele) (cls : Kind) (message : Option String)
    (status_code : Option Int) (send_message_in_event : Bool) :
    Except String (ErrorRecord × List Event) :=
  match nodeErrorInit t cls message send_message_in_event with
  | Except.error e => Except.error e
  | Except.ok (r, log) => Except.ok ({ r with status_code := Option.some status_code }, log)

/-- Embeds `OpenAIRateLimitError.__init__`: `super().__init__(message,
status_code=429, send_message_in_event=...)`. -/
def openAIRateLimitErrorInit (t : Tele) (cls : Kind) (message : Option String)
    (send_message_in_event : Bool) : Except String (ErrorRecord × List Event) :=
  openAIErrorInit t cls message (Option.some 429) send_message_in_event

/-- Embeds `CohereError.__init__`. -/
def cohereErrorInit (t : Tele) (cls : Kind) (message : Option String)
    (status_code : Option Int) (send_message_in_event : Bool) :
    Except String (ErrorRecord × List Event) :=
  match nodeErrorInit t cls message send_message_in_event with
  | Except.error e => Except.error e
  | Except.ok (r, log) => Except.ok ({ r with status_code := Option.some status_code }, log)

/-- Embeds `ImageToTextError.__init__`. -/
def imageToTextErrorInit (t : Tele) (cls : Kind) (message : Option String) :
    Except String (ErrorRecord × List Event) :=
  nodeErrorInit t cls message true

/-- One call to a constructor of the module, with the arguments its Python
signature accepts (defaults are applied by `construct1` callers or by
`defaultCall` below). -/
inductive Call
  | haystackError (message docs_link : Option String) (send : Bool)
  | modelingError (message docs_link : Option String)
  | pipelineError (message docs_link : Option String)
  | pipelineSchemaError (message : Option String)
  | pipelineConfigError (message docs_link : Option String)
  | documentStoreError (message : Option String) (send : Bool)
  | filterError (message : Option String)
  | pineconeDocumentStoreError (message : Option String)
  | duplicateDocumentError (message : Option String)
  | nodeError (message : Option String) (send : Bool)
  | audioNodeError (message : Option String)
  | openAIError (message : Option String) (status_code : Option Int) (send : Bool)
  | openAIRateLimitError (message : Option String) (send : Bool)
  | cohereError (message : Option String) (status_code : Option Int) (send : Bool)
  | imageToTextError (message : Option String)

/-- The class a call instantiates (`type(self)` inside the chain). -/
def kindOf : Call → Kind
  | .haystackError _ _ _ => .HaystackError
  | .modelingError _ _ => .ModelingError
  | .pipelineError _ _ => .PipelineError
  | .pipelineSchemaError _ => .PipelineSchemaError
  | .pipelineConfigError _ _ => .PipelineConfigError
  | .documentStoreError _ _ => .DocumentStoreError
  | .filterError _ => .FilterError
  | .pineconeDocumentStoreError _ => .PineconeDocumentStoreError
  | .duplicateDocumentError _ => .DuplicateDocumentError
  | .nodeError _ _ => .NodeError
  | .audioNodeError _ => .AudioNodeError
  | .openAIError _ _ _ => .OpenAIError
  | .openAIRateLimitError _ _ => .OpenAIRateLimitError
  | .cohereError _ _ _ => .CohereError
  | .imageToTextError _ => .ImageToTextError

/-- Runs a constructor call against a transport: the record built and the
telemetry calls made, or the exception that escaped. -/
def construct (t : Tele) : Call → Except String (ErrorRecord × List Event)
  | .haystackError m d s => haystackErrorInit t .HaystackError m d s
  | .modelingError m d => modelingErrorInit t .ModelingError m d
  | .pipelineError m d => pipelineErrorInit t .PipelineError m d
  | .pipelineSchemaError m => pipelineSchemaErrorInit t .PipelineSchemaError m
  | .pipelineConfigError m d => pipelineConfigErrorInit t .PipelineConfigError m d
  | .documentStoreError m s => documentStoreErrorInit t .DocumentStoreError m s
  | .filterError m => filterErrorInit t .FilterError m
  | .pineconeDocumentStoreError m => pineconeDocumentStoreErrorInit t .PineconeDocumentStoreError m
  | .duplicateDocumentError m => duplicateDocumentErrorInit t .DuplicateDocumentError m
  | .nodeError m s => nodeErrorInit t .NodeError m s
  | .audioNodeError m => audioNodeErrorInit t .AudioNodeError m
  | .openAIError m c s => openAIErrorInit t .OpenAIError m c s
  | .openAIRateLimitError m s => openAIRateLimitErrorInit t .OpenAIRateLimitError m s
  | .cohereError m c s => cohereErrorInit t .CohereError m c s
  | .imageToTextError m => imageToTextErrorInit t .ImageToTextError m

/-- A transport that always succeeds (telemetry delivery works). -/
def okT : Tele := fun _ => Except.ok ()

/-- Constructing a kind with only a message, every other argument left at
its Python default — the literal defaults of each `def __init__` signature. -/
def defaultCall : Kind → Option String → Call
  | .HaystackError, m => .haystackError m Option.none true
  | .ModelingError, m => .modelingError m modelingDocsDefault
  | .PipelineError, m => .pipelineError m pipelineDocsDefault
  | .PipelineSchemaError, m => .pipelineSchemaError m
  | .PipelineConfigError, m => .pipelineConfigError m pipelineConfigDocsDefault
  | .DocumentStoreError, m => .documentStoreError m false
  | .FilterError, m => .filterError m
  | .PineconeDocumentStoreError, m => .pineconeDocumentStoreError m
  | .DuplicateDocumentError, m => .duplicateDocumentError m
  | .NodeError, m => .nodeError m true
  | .AudioNodeError, m => .audioNodeError m
  | .OpenAIError, m => .openAIError m Option.none false
  | .OpenAIRateLimitError, m => .openAIRateLimitError m false
  | .CohereError, m => .cohereError m Option.none false
  | .ImageToTextError, m => .imageToTextError m

/-- Looks an attribute up on `self.__cause__`: `getattr(self.__cause__, attr)`.
With no cause, `self.__cause__` is `None` and the lookup raises
`AttributeError`; with a cause, it returns the cause's value for the
attribute, or raises `AttributeError` when the cause lacks it too. -/
def causeLookup (cause : Option (List (String × PyValue))) (attr : String) :
    Except PyErr PyValue :=
  match cause with
  | Option.none => Except.error PyErr.attributeError
  | Option.some c =>
      match c.lookup attr with
      | Option.some v => Except.ok v
      | Option.none => Except.error PyErr.attributeError

/-- Embeds `HaystackError.__getattr__`: the body is the bare expression
`getattr(self.__cause__, attr)` with no `return` statement, so when the
lookup succeeds its value is discarded and the method falls off the end,
yielding Python `None`; when it raises, the exception propagates. -/
def getattrDunder (r : ErrorRecord) (attr : String) : Except PyErr PyValue :=
  match causeLookup r.cause attr with
  | Except.ok _ => Except.ok PyValue.none
  | Except.error e => Except.error e

/-- Full attribute access `getattr(record, attr)`: the instance attributes
set by the constructors are consulted first (`message` and `status_code`
only when they were set, `docs_link` always, holding `None`); any other
name falls through to `__getattr__`. -/
def getattrRec (r : ErrorRecord) (attr : String) : Except PyErr PyValue :=
  if attr == "message" then
    match r.message with
    | Option.some s => Except.ok (PyValue.str s)
    | Option.none => getattrDunder r attr
  else if attr == "docs_link" then
    Except.ok (match r.docs_link with
      | Option.some s => PyValue.str s
      | Option.none => PyValue.none)
  else if attr == "status_code" then
    match r.status_code with
    | Option.some v =>
        Except.ok (match v with
          | Option.some n => PyValue.int n
          | Option.none => PyValue.none)
    | Option.none => getattrDunder r attr
  else getattrDunder r attr

/-- `raise record from err`: Python sets `record.__cause__ = err`. -/
def withCause (r : ErrorRecord) (c : List (String × PyValue)) : ErrorRecord :=
  { r with cause := Option.some c }

/-- Embeds `HaystackError.__str__` (the module's `render()`): when
`self.docs_link` is truthy the result is `self.message` concatenated with
`"\n\nCheck out the documentation at {docs_link}"`, otherwise `self.message`
alone. Reading `self.message` goes through attribute access and can raise
`AttributeError`; if it yields Python `None`, the concatenation (or `str()`
returning a non-string) raises `TypeError`. -/
def strDunder (r : ErrorRecord) : Except PyErr String :=
  if strTruthy r.docs_link then
    match getattrRec r "message" with
    | Except.ok (PyValue.str s) =>
        Except.ok (s ++ "\n\nCheck out the documentation at " ++ r.docs_link.getD "")
    | Except.ok _ => Except.error PyErr.typeError
    | Except.error e => Except.error e
  else
    match getattrRec r "message" with
    | Except.ok (PyValue.str s) => Except.ok s
    | Except.ok _ => Except.error PyErr.typeError
    | Except.error e => Except.error e

/-- The per-kind default of the `send_message_in_event` flag: `False` for the
document-store family and the remote-API family, `True` elsewhere. -/
def defaultSendFlag : Kind → Bool
  | .DocumentStoreError => false
  | .FilterError => false
  | .PineconeDocumentStoreError => false
  | .DuplicateDocumentError => false
  | .OpenAIError => false
  | .OpenAIRateLimitError => false
  | .CohereError => false
  | _ => true

/-- Replaces the `message` argument of a call, keeping every other argument:
used to compare constructing with `""` against constructing with `None`. -/
def setMsg : Call → Option String → Call
  | .haystackError _ d s, m => .haystackError m d s
  | .modelingError _ d, m => .modelingError m d
  | .pipelineError _ d, m => .pipelineError m d
  | .pipelineSchemaError _, m => .pipelineSchemaError m
  | .pipelineConfigError _ d, m => .pipelineConfigError m d
  | .documentStoreError _ s, m => .documentStoreError m s
  | .filterError _, m => .filterError m
  | .pineconeDocumentStoreError _, m => .pineconeDocumentStoreError m
  | .duplicateDocumentError _, m => .duplicateDocumentError m
  | .nodeError _ s, m => .nodeError m s
  | .audioNodeError _, m => .audioNodeError m
  | .openAIError _ c s, m => .openAIError m c s
  | .openAIRateLimitError _ s, m => .openAIRateLimitError m s
  | .cohereError _ c s, m => .cohereError m c s
  | .imageToTextError _, m => .imageToTextError m

/-- A transport that rejects every event: used to exercise telemetry failure. -/
def downT : Tele := fun _ => Except.error "telemetry transport down"

/-- Claim C2: every constructor call of the taxonomy makes exactly one
telemetry call, and its event name is the dynamic class name followed by
" raised". -/
theorem construct_emits_one_event (t : Tele) (c : Call) :
    (construct t c).map (fun p => p.2.map Event.name)
      = Except.ok [className (kindOf c) ++ " raised"] := by
  cases c <;> rfl

/-- Claim C3: constructing any kind with default arguments emits, for kinds
whose `send_message_in_event` flag defaults to `False`, an empty telemetry
payload — the same payload whatever the message — and, for kinds defaulting
to `True`, the payload `{"message": m}`. -/
theorem default_payload_policy (k : Kind) (m₁ m₂ : Option String) :
    (construct okT (defaultCall k m₁)).map (fun p => p.2.map Event.payload)
      = Except.ok [if defaultSendFlag k then Payload.withMessage m₁ else Payload.empty]
    ∧ (defaultSendFlag k = false →
        (construct okT (defaultCall k m₁)).map (fun p => p.2.map Event.payload)
          = (construct okT (defaultCall k m₂)).map (fun p => p.2.map Event.payload)) := by
  cases k <;> refine ⟨rfl, fun h => ?_⟩ <;> first | rfl | exact absurd h (by decide)

/-- Witness for C3: two `DocumentStoreError` constructions with different
messages produce identical telemetry payloads. -/
theorem default_payload_policy_witness :
    (construct okT (defaultCall Kind.DocumentStoreError (Option.some "secret content"))).map
        (fun p => p.2.map Event.payload)
      = (construct okT (defaultCall Kind.DocumentStoreError (Option.some "other content"))).map
        (fun p => p.2.map Event.payload) :=
  (default_payload_policy Kind.DocumentStoreError
    (Option.some "secret content") (Option.some "other content")).2 rfl

/-- Claim C5: when the telemetry transport fails on every event, construction
still completes with the same record and call log as under a working
transport — the failure is swallowed inside `send_custom_event` and never
propagates out of `__init__`. -/
theorem construct_ok_despite_transport_failure (t : Tele) (c : Call)
    (h : ∀ ev, ∃ e, t ev = Except.error e) :
    construct t c = construct okT c
    ∧ ∃ r : ErrorRecord × List Event, construct t c = Except.ok r := by
  cases c <;> exact ⟨rfl, _, rfl⟩

/-- Witness for C5: with the always-failing transport `downT`, constructing a
`PipelineError` returns a record. -/
theorem construct_ok_despite_transport_failure_witness :
    construct downT (Call.pipelineError Option.none pipelineDocsDefault)
        = construct okT (Call.pipelineError Option.none pipelineDocsDefault)
    ∧ ∃ r : ErrorRecord × List Event,
        construct downT (Call.pipelineError Option.none pipelineDocsDefault) = Except.ok r :=
  construct_ok_despite_transport_failure downT
    (Call.pipelineError Option.none pipelineDocsDefault)
    (fun _ => ⟨"telemetry transport down", rfl⟩)

/-- Claim C6: every `OpenAIRateLimitError` construction stores
`status_code = 429`, whatever the message and flag arguments. -/
theorem rateLimit_status_429 (t : Tele) (m : Option String) (s : Bool) :
    (construct t (Call.openAIRateLimitError m s)).map (fun p => p.1.status_code)
      = Except.ok (Option.some (Option.some 429)) := rfl

/-- Claim C7: a constructed `DuplicateDocumentError` is an instance of both
`DocumentStoreError` and `ValueError`. -/
theorem duplicateDocument_capabilities (t : Tele) (m : Option String) :
    (construct t (Call.duplicateDocumentError m)).map (fun p =>
        (isSubclass (PyClass.E p.1.cls) (PyClass.E Kind.DocumentStoreError),
         isSubclass (PyClass.E p.1.cls) PyClass.ValueError))
      = Except.ok (true, true) := rfl

/-- Claim C9: every construction, including ones passing an explicit
`docs_link` argument, stores `docs_link = None` on the record. -/
theorem docs_link_never_retained (t : Tele) (c : Call) :
    (construct t c).map (fun p => p.1.docs_link) = Except.ok Option.none := by
  cases c <;> rfl

/-- Claim C1 (code bug): constructing `PipelineConfigError` with message
"missing field 'nodes'" and its default docs link renders to the bare
message — `__init__` assigns `self.docs_link = None`, discarding the
argument, so the documentation hint the dead branch of `__str__` would
append (and that the docstrings and per-kind URL defaults promise) is never
produced. -/
theorem pipelineConfig_render_lacks_docs_hint :
    (construct okT (Call.pipelineConfigError
        (Option.some "missing field \x27nodes\x27") pipelineConfigDocsDefault)).map
        (fun p => strDunder p.1)
      = Except.ok (Except.ok "missing field \x27nodes\x27")
    ∧ ("missing field \x27nodes\x27" : String)
        ≠ "missing field \x27nodes\x27\n\nCheck out the documentation at https://docs.haystack.deepset.ai/docs/pipelines#yaml-file-definitions" := by
  refine ⟨rfl, fun h => ?_⟩
  exact absurd (congrArg String.length h) (by decide)

/-- Claim C4 (code bug): reading an unknown attribute from a record whose
cause carries that attribute yields Python `None`, not the cause's value —
`__getattr__` evaluates `getattr(self.__cause__, attr)` but lacks a `return`,
contradicting the class docstring's promise that the attribute "will exist
and have the expected content"; without a cause the read does raise
`AttributeError` as documented. -/
theorem getattr_delegation_discards_value :
    (construct okT (Call.haystackError (Option.some "boom") Option.none true)).map (fun p =>
        (getattrRec (withCause p.1 [("code", PyValue.int 500)]) "code",
         getattrRec p.1 "code"))
      = Except.ok (Except.ok PyValue.none, Except.error PyErr.attributeError)
    ∧ (Except.ok PyValue.none : Except PyErr PyValue) ≠ Except.ok (PyValue.int 500) :=
  ⟨rfl, fun h => PyValue.noConfusion (Except.ok.inj h)⟩

/-- Claim C8 (counterexample): a `HaystackError` constructed with no message
does not render to default text — `str()` raises `AttributeError`, because
`self.message` was never set and the lookup falls through to the absent
cause. -/
theorem render_no_message_raises :
    (construct okT (defaultCall Kind.HaystackError Option.none)).map (fun p => strDunder p.1)
      = Except.ok (Except.error PyErr.attributeError) := rfl

/-- Claim C8 (amended): for every kind, rendering a record constructed with
no message fails with `AttributeError` instead of returning text. -/
theorem render_no_message_attributeError (k : Kind) :
    (construct okT (defaultCall k Option.none)).map (fun p => strDunder p.1)
      = Except.ok (Except.error PyErr.attributeError) := by
  cases k <;> rfl

/-- Claim C10: constructing with `""` as message builds the same record as
constructing with `None` (the `if message:` guard treats both as falsy, so
the `message` attribute is not set); a read of `message` then goes to
`__getattr__`'s cause delegation, and raises `AttributeError` when no cause
is attached. -/
theorem empty_message_like_no_message (c : Call) (cse : List (String × PyValue)) :
    (construct okT (setMsg c (Option.some ""))).map Prod.fst
      = (construct okT (setMsg c Option.none)).map Prod.fst
    ∧ (construct okT (setMsg c (Option.some ""))).map (fun p => p.1.message)
      = Except.ok Option.none
    ∧ (construct okT (setMsg c (Option.some ""))).map (fun p =>
         getattrRec (withCause p.1 cse) "message")
      = (construct okT (setMsg c (Option.some ""))).map (fun p =>
         getattrDunder (withCause p.1 cse) "message")
    ∧ (construct okT (setMsg c (Option.some ""))).map (fun p => getattrRec p.1 "message")
      = Except.ok (Except.error PyErr.attributeError) := by
  cases c <;> exact ⟨rfl, rfl, rfl, rfl⟩
